import Mathlib

/-!
Verification of WebDbReader (Go) against its specification.

The Go code is shallowly embedded: Go strings are modelled as `List Char`
(`Str`); every string primitive used by the program (`strings.TrimSpace`,
`HasPrefix`, `TrimPrefix`, `TrimSuffix`, `ToLower`, `ToUpper`) is defined
below, faithful to the Go standard library on the ASCII/Latin-1 range the
program exercises.  Fallible Go functions return `Except`.
-/

namespace WebDbReader

/-- Go strings, modelled as lists of characters (the program only ever
indexes at ASCII prefixes, where bytes and characters coincide). -/
abbrev Str := List Char

instance {ε α : Type} [DecidableEq ε] [DecidableEq α] :
    DecidableEq (Except ε α) := fun x y =>
  match x, y with
  | .ok a, .ok b =>
    decidable_of_iff (a = b) ⟨fun h => by rw [h], fun h => by cases h; rfl⟩
  | .ok _, .error _ => .isFalse (fun h => by cases h)
  | .error _, .ok _ => .isFalse (fun h => by cases h)
  | .error a, .error b =>
    decidable_of_iff (a = b) ⟨fun h => by rw [h], fun h => by cases h; rfl⟩

/-- Model of `unicode.IsSpace` on the Latin-1 range: '\t', '\n', '\v',
'\f', '\r', ' ', U+0085 (NEL), U+00A0 (NBSP).  Higher-plane Unicode
space characters are not modelled; no claim exercises them. -/
def isGoSpace (c : Char) : Bool :=
  c.val = 32 || c.val = 9 || c.val = 10 || c.val = 11 || c.val = 12 ||
  c.val = 13 || c.val = 133 || c.val = 160

/-- Model of `strings.TrimSpace`: drop leading and trailing whitespace. -/
def trimSpace (s : Str) : Str :=
  ((s.dropWhile isGoSpace).reverse.dropWhile isGoSpace).reverse

/-- Model of `unicode.ToLower` on the ASCII range (the program only lowercases to
compare against the ASCII keywords "select" / "with"). -/
def lowerChar (c : Char) : Char :=
  if c.val ≥ 65 && c.val ≤ 90 then Char.ofNat (c.toNat + 32) else c

/-- Model of `unicode.ToUpper` on the ASCII range (used to compare against the
ASCII marker "MISSING:"). -/
def upperChar (c : Char) : Char :=
  if c.val ≥ 97 && c.val ≤ 122 then Char.ofNat (c.toNat - 32) else c

/-- Model of `strings.ToLower`. -/
def toLowerS (s : Str) : Str := s.map lowerChar

/-- Model of `strings.ToUpper`. -/
def toUpperS (s : Str) : Str := s.map upperChar

/-- Model of `strings.HasPrefix s pre`. -/
def hasPrefixL : Str → Str → Bool
  | _, [] => true
  | [], _ :: _ => false
  | c :: s, p :: ps => c = p && hasPrefixL s ps

/-- Model of `strings.HasSuffix s suf`. -/
def hasSuffixL (s suf : Str) : Bool :=
  hasPrefixL s.reverse suf.reverse

/-- Model of `strings.TrimPrefix s pre`. -/
def trimPrefixL (s pre : Str) : Str :=
  if hasPrefixL s pre then s.drop pre.length else s

/-- Model of `strings.TrimSuffix s suf`. -/
def trimSuffixL (s suf : Str) : Str :=
  if hasSuffixL s suf then s.take (s.length - suf.length) else s

/-! ## Safety Gate (`validateSelectQuery`, src/main.go) -/

/-- The two rejection reasons of the Safety Gate.  The source defines these as
`errEmptyQuery` ("query is required") and `errNotSelectQuery` ("only
SELECT / CTE queries are allowed"); the spec taxonomy calls them
`EmptyQuery` and `NotReadOnly`. -/
inductive QueryError where
  | emptyQuery
  | notSelectQuery
deriving DecidableEq, Repr

/-- The Go error message attached to each `QueryError`. -/
def errMessage : QueryError → Str
  | .emptyQuery => "query is required".data
  | .notSelectQuery => "only SELECT / CTE queries are allowed".data

/-- Model of `validateSelectQuery` (src/main.go:366-376): trim, reject empty,
accept iff the lowered text has prefix "select" or "with". -/
def validateSelectQuery (raw : Str) : Except QueryError Str :=
  let query := trimSpace raw
  if query = [] then
    .error .emptyQuery
  else
    let lower := toLowerS query
    if !hasPrefixL lower "select".data && !hasPrefixL lower "with".data then
      .error .notSelectQuery
    else
      .ok query

/-- Modelled from the spec: the first-keyword reading of the gate (for
comparison with the source check, which is a plain prefix test): the first whitespace-delimited
token of the trimmed text. -/
def specFirstKeyword (s : Str) : Str :=
  (trimSpace s).takeWhile (fun c => !isGoSpace c)

/-! ## Row-limit clamp (`clampLimit`, src/main.go) -/

/-- Model of `defaultLimit` (src/main.go:26). -/
def defaultLimit : Int := 200

/-- Model of `maxLimit` (src/main.go:27). -/
def maxLimit : Int := 1000

/-- Model of `clampLimit` (src/main.go:353-361). -/
def clampLimit (limit : Int) : Int :=
  if limit ≤ 0 then defaultLimit
  else if limit > maxLimit then maxLimit
  else limit

/-! ## Response Parser (`ParseResponse`, src/internal/llm/prompt.go) -/

/-- Model of `GenerateResponse` (src/internal/llm/prompt.go:246-251).  Go zero
values give the field defaults. -/
structure GenerateResponse where
  SQL : Str := []
  Missing : Str := []
  Error : Str := []
  Tokens : Int := 0
deriving DecidableEq, Repr

/-- Model of `GenerateResponse.IsMissing` (src/internal/llm/prompt.go:254-256):
`r.Missing != "" && r.SQL == ""`. -/
def GenerateResponse.IsMissing (r : GenerateResponse) : Bool :=
  !r.Missing.isEmpty && r.SQL.isEmpty

/-- Model of `ParseResponse` (src/internal/llm/prompt.go:321-340): trim; if the
upper-cased text begins with "MISSING:", the trimmed remainder (after the
8-byte marker) is the missing explanation; otherwise strip the exact
prefixes "```sql", "```SQL", "```" in turn, a trailing "```", and trim
again. -/
def ParseResponse (raw : Str) : GenerateResponse :=
  let trimmed := trimSpace raw
  let upper := toUpperS trimmed
  if hasPrefixL upper "MISSING:".data then
    { Missing := trimSpace (trimmed.drop 8) }
  else
    let sql := trimmed
    let sql := trimPrefixL sql "```sql".data
    let sql := trimPrefixL sql "```SQL".data
    let sql := trimPrefixL sql "```".data
    let sql := trimSuffixL sql "```".data
    let sql := trimSpace sql
    { SQL := sql }

/-! ## Orchestrator core (`handleGenerateSQL`, src/main.go:244-291)

The HTTP decoding and the provider network call are external; both
providers, on a successful call, apply `ParseResponse` to the extracted
text and attach the token-usage total.  The post-provider logic of
`handleGenerateSQL` is embedded as a function of that raw text and token
count. -/

/-- Model of `generateSQLResponse` (src/main.go:237-242). -/
structure GenerateSQLResponse where
  SQL : Str := []
  Missing : Str := []
  Error : Str := []
  Tokens : Int := 0
deriving DecidableEq, Repr

/-- The post-provider branch of `handleGenerateSQL` (src/main.go:277-291):
if the parsed response is missing-flavoured, surface it; otherwise run the
Safety Gate over the candidate, reporting a prefixed
"LLM generated invalid query: " error on rejection and the candidate on
acceptance. -/
def handleGenerateCore (raw : Str) (tokens : Int) : GenerateSQLResponse :=
  let resp := { ParseResponse raw with Tokens := tokens }
  if resp.IsMissing then
    { Missing := resp.Missing, Tokens := resp.Tokens }
  else
    match validateSelectQuery resp.SQL with
    | .error e => { Error := "LLM generated invalid query: ".data ++ errMessage e }
    | .ok _ => { SQL := resp.SQL, Tokens := resp.Tokens }

/-! ## Driver values and per-row normalization (src/main.go:323-351)

A scanned driver value is `nil`, a byte slice, a `time.Time`, or some
other scalar (int / bool / string cover the driver scalars the claims
exercise).  A byte payload is carried as the text the Go `string(val)`
conversion yields (that conversion is byte-identity). -/

/-- A wall-clock instant as `time.Time` presents it to `Format`:
calendar fields, nanoseconds, and the zone offset in minutes. -/
structure GoTime where
  year : Nat
  month : Nat
  day : Nat
  hour : Nat
  minute : Nat
  second : Nat
  nanos : Nat
  offsetMin : Int
deriving DecidableEq, Repr

/-- A driver-level scanned value. -/
inductive Value where
  | null
  | bytes (s : Str)
  | time (t : GoTime)
  | int (n : Int)
  | bool (b : Bool)
  | str (s : Str)
deriving DecidableEq, Repr

/-- Decimal digits of a natural number. -/
def natDigits (n : Nat) : Str := Nat.toDigits 10 n

/-- Left-pad with '0' to width `w` (Go zero-pads time fields). -/
def padZ (w : Nat) (s : Str) : Str := List.replicate (w - s.length) '0' ++ s

/-- The `Z07:00` zone suffix of the Go RFC 3339 layouts: "Z" at offset
zero, else a signed hh:mm offset. -/
def zoneSuffix (offsetMin : Int) : Str :=
  if offsetMin = 0 then ['Z']
  else (if offsetMin < 0 then ['-'] else ['+']) ++
    padZ 2 (natDigits (offsetMin.natAbs / 60)) ++ [':'] ++
    padZ 2 (natDigits (offsetMin.natAbs % 60))

/-- The date-time part common to RFC 3339 and RFC 3339-nano:
`2006-01-02T15:04:05`. -/
def baseRFC3339 (t : GoTime) : Str :=
  padZ 4 (natDigits t.year) ++ "-".data ++ padZ 2 (natDigits t.month) ++
  "-".data ++ padZ 2 (natDigits t.day) ++ "T".data ++
  padZ 2 (natDigits t.hour) ++ ":".data ++ padZ 2 (natDigits t.minute) ++
  ":".data ++ padZ 2 (natDigits t.second)

/-- Model of `t.Format(time.RFC3339)`: second precision, zone-aware. -/
def formatRFC3339 (t : GoTime) : Str :=
  baseRFC3339 t ++ zoneSuffix t.offsetMin

/-- Drop trailing '0' characters (the Go `.999999999` fractional layout
removes trailing zeros). -/
def dropTrailingZeros (s : Str) : Str :=
  (s.reverse.dropWhile (fun c => c = '0')).reverse

/-- The fractional-seconds part of RFC 3339-nano: absent at zero
nanoseconds, else a '.' and the 9-digit field with trailing zeros
removed. -/
def fracNanos (n : Nat) : Str :=
  if n = 0 then [] else '.' :: dropTrailingZeros (padZ 9 (natDigits n))

/-- Model of `t.Format(time.RFC3339Nano)`: nanosecond precision, zone-aware. -/
def formatRFC3339Nano (t : GoTime) : Str :=
  baseRFC3339 t ++ fracNanos t.nanos ++ zoneSuffix t.offsetMin

/-- Model of `fmt.Sprintf("%v", n)` for a Go int. -/
def goFmtInt (n : Int) : Str :=
  if n < 0 then '-' :: natDigits n.natAbs else natDigits n.natAbs

/-- One case of the switch in `normalizeRow` (src/main.go:339-348): nil stays
the distinguished null; bytes become their text; a time becomes its
RFC 3339-nano rendering; every other value passes through unchanged. -/
def normalizeValue : Value → Value
  | .null => .null
  | .bytes s => .str s
  | .time t => .str (formatRFC3339Nano t)
  | v => v

/-- Model of `normalizeRow` (src/main.go:336-351). -/
def normalizeRow (values : List Value) : List Value :=
  values.map normalizeValue

/-- Model of `formatCSVValue` (src/main.go:323-334): nil becomes the empty string;
bytes become their text; a time becomes its RFC 3339 rendering; every
other value is rendered by `fmt.Sprintf("%v", val)`. -/
def formatCSVValue : Value → Str
  | .null => []
  | .bytes s => s
  | .time t => formatRFC3339 t
  | .int n => goFmtInt n
  | .bool b => if b then "true".data else "false".data
  | .str s => s

/-! ## Result shaping (`handleQuery`, src/main.go:153-177)

The row loop of `handleQuery`, over the rows the cursor yields (scan
errors are external failures, out of this path): append normalized rows
until the accepted count reaches the limit, then flag "more" and stop. -/

/-- The `for result.rows.Next()` loop of `handleQuery`: `acc` is
`resp.Rows` so far, the list argument the rows the cursor has yet to
yield.  Returns the final `resp.Rows` and the `More` flag. -/
def shapeLoop (limit : Int) : List (List Value) → List (List Value) →
    List (List Value) × Bool
  | acc, [] => (acc, false)
  | acc, r :: rest =>
    if (acc.length : Int) ≥ limit then (acc, true)
    else shapeLoop limit (acc ++ [normalizeRow r]) rest

/-- The fields of `queryResponse` (src/main.go:44-51) that the shaping
loop populates. -/
structure QueryShaped where
  rows : List (List Value)
  more : Bool
  count : Nat
deriving DecidableEq, Repr

/-- The shaping in `handleQuery` (src/main.go:140, 153-174): clamp the
requested limit, run the row loop from an empty accumulator, and set
`Count` to the number of rows returned. -/
def handleQueryShape (rows : List (List Value)) (reqLimit : Int) : QueryShaped :=
  let limit := clampLimit reqLimit
  { rows := (shapeLoop limit [] rows).1
    more := (shapeLoop limit [] rows).2
    count := (shapeLoop limit [] rows).1.length }

/-! ## Schema Cache (`Cache.Load` / `loadTables`, src/internal/schema/schema.go)

The five catalog queries run against a live database; each is modelled by
its outcome, an `Except` of either an error or the fetched data.  Go maps
(`columns[name]`, `rowEstimates[name]`, …) are association lists read
through a zero-value-defaulting lookup. -/

/-- Model of `schema.Column` (src/internal/schema/schema.go:29-35).
`getColumns` never sets `IsPK`; the Go zero value leaves it `false` until
`loadTables` marks primary-key columns. -/
structure Column where
  Name : Str
  /-- The source names this field `Type`, a keyword here. -/
  DeclaredType : Str
  Nullable : Bool
  IsPK : Bool := false
  Comment : Str := []
deriving DecidableEq, Repr

/-- Model of `schema.ForeignKey` (src/internal/schema/schema.go:38-42). -/
structure ForeignKey where
  Column : Str
  ForeignTable : Str
  ForeignColumn : Str
deriving DecidableEq, Repr

/-- Model of `schema.Table` (src/internal/schema/schema.go:21-26). -/
structure Table where
  Name : Str
  Columns : List Column
  ForeignKeys : List ForeignKey
  RowEstimate : Int
deriving DecidableEq, Repr

/-- Go map read with zero-value default: `m[k]` is the stored value or
`d` when `k` is absent. -/
def lookupD {α : Type} (m : List (Str × α)) (k : Str) (d : α) : α :=
  match m with
  | [] => d
  | (k', v) :: rest => if k' = k then v else lookupD rest k d

/-- The outcomes of the five catalog introspection queries
(`getTableNames`, `getColumns`, `getPrimaryKeys`, `getForeignKeys`,
`getRowEstimates`, src/internal/schema/schema.go:213-363).  Errors are
carried as their message text. -/
structure Introspection where
  tableNames : Except Str (List Str)
  columns : Except Str (List (Str × List Column))
  primaryKeys : Except Str (List (Str × List Str))
  foreignKeys : Except Str (List (Str × List ForeignKey))
  rowEstimates : Except Str (List (Str × Int))

/-- Whether an `Except` is a success. -/
def exceptIsOk {ε α : Type} : Except ε α → Bool
  | .ok _ => true
  | .error _ => false

/-- The per-table assembly of `loadTables`
(src/internal/schema/schema.go:188-207): attach columns, mark those whose
name appears in the primary-key set of the table, attach foreign keys and the
row estimate (map default 0). -/
def buildTable (cols : List (Str × List Column))
    (pks : List (Str × List Str)) (fks : List (Str × List ForeignKey))
    (est : List (Str × Int)) (name : Str) : Table :=
  let pkCols := lookupD pks name []
  { Name := name
    Columns := (lookupD cols name []).map
      (fun c => if c.Name ∈ pkCols then { c with IsPK := true } else c)
    ForeignKeys := lookupD fks name []
    RowEstimate := lookupD est name 0 }

/-- Model of `loadTables` (src/internal/schema/schema.go:160-211): the first four
queries are fatal on failure; a failed row-estimate query is replaced by
an empty map and the load proceeds. -/
def loadTables (it : Introspection) : Except Str (List Table) :=
  match it.tableNames with
  | .error e => .error e
  | .ok names =>
    match it.columns with
    | .error e => .error e
    | .ok cols =>
      match it.primaryKeys with
      | .error e => .error e
      | .ok pks =>
        match it.foreignKeys with
        | .error e => .error e
        | .ok fks =>
          let est := match it.rowEstimates with
            | .ok m => m
            | .error _ => []
          .ok (names.map (buildTable cols pks fks est))

/-- The mutable fields of `schema.Cache` (src/internal/schema/schema.go:14-18);
the refresh timestamp is an abstract instant. -/
structure CacheState where
  tables : List Table
  lastRefresh : Int
deriving DecidableEq, Repr

/-- Model of `Cache.Load` (src/internal/schema/schema.go:50-62): on a `loadTables`
failure return the wrapped error leaving the cache untouched; on success
publish the new tables and the current instant `now`. -/
def cacheLoad (st : CacheState) (it : Introspection) (now : Int) :
    Except Str Unit × CacheState :=
  match loadTables it with
  | .error e => (.error ("load tables: ".data ++ e), st)
  | .ok ts => (.ok (), { tables := ts, lastRefresh := now })

/-! # Theorems -/

/-- C1: for every input to the Safety Gate, an empty or all-whitespace
string is rejected with the `EmptyQuery` error; a non-empty trimmed
string whose lowered form begins with "select" or "with" is accepted and
returned trimmed but otherwise unchanged; every other non-empty string
is rejected with the `NotReadOnly` error (`errNotSelectQuery`). -/
theorem validateSelectQuery_gate (raw : Str) :
    (trimSpace raw = [] →
      validateSelectQuery raw = Except.error QueryError.emptyQuery) ∧
    (trimSpace raw ≠ [] →
      (hasPrefixL (toLowerS (trimSpace raw)) "select".data = true ∨
       hasPrefixL (toLowerS (trimSpace raw)) "with".data = true) →
      validateSelectQuery raw = Except.ok (trimSpace raw)) ∧
    (trimSpace raw ≠ [] →
      hasPrefixL (toLowerS (trimSpace raw)) "select".data = false →
      hasPrefixL (toLowerS (trimSpace raw)) "with".data = false →
      validateSelectQuery raw = Except.error QueryError.notSelectQuery) := by
  refine ⟨fun h => ?_, fun h hp => ?_, fun h h1 h2 => ?_⟩
  · simp [validateSelectQuery, h]
  · rcases hp with hp | hp <;> simp [validateSelectQuery, h, hp]
  · simp [validateSelectQuery, h, h1, h2]

/-- Witness for C1 at three concrete inputs, one per branch. -/
theorem validateSelectQuery_gate_witness :
    validateSelectQuery "   ".data = Except.error QueryError.emptyQuery ∧
    validateSelectQuery "  SELECT 1 ".data = Except.ok "SELECT 1".data ∧
    validateSelectQuery "drop table t".data =
      Except.error QueryError.notSelectQuery := by
  refine ⟨(validateSelectQuery_gate _).1 (by decide), ?_,
    (validateSelectQuery_gate _).2.2 (by decide) (by decide) (by decide)⟩
  have h := (validateSelectQuery_gate "  SELECT 1 ".data).2.1 (by decide)
    (Or.inl (by decide))
  rw [h]; decide

/-- C2 counterexample: the Safety Gate is a prefix check, not a
first-keyword check.  The first whitespace-delimited keyword of
"withdraw funds" is "withdraw", which is neither "select" nor "with",
yet the gate accepts the input instead of rejecting it with
`NotReadOnly`. -/
theorem validateSelectQuery_firstKeyword_cex :
    specFirstKeyword "withdraw funds".data = "withdraw".data ∧
    toLowerS (specFirstKeyword "withdraw funds".data) ≠ "select".data ∧
    toLowerS (specFirstKeyword "withdraw funds".data) ≠ "with".data ∧
    validateSelectQuery "withdraw funds".data =
      Except.ok "withdraw funds".data := by decide

/-- C2 amended: for every non-empty trimmed input, the Safety Gate
accepts (returning the trimmed text) iff the lowered trimmed text merely
begins with the letters "select" or "with" — a prefix test, not a
token-delimited first-keyword test — and rejects with `NotReadOnly`
exactly when both prefix tests fail; in particular "withdraw funds" is
accepted. -/
theorem validateSelectQuery_prefixCheck (raw : Str) (h : trimSpace raw ≠ []) :
    (validateSelectQuery raw = Except.ok (trimSpace raw) ↔
      (hasPrefixL (toLowerS (trimSpace raw)) "select".data = true ∨
       hasPrefixL (toLowerS (trimSpace raw)) "with".data = true)) ∧
    (validateSelectQuery raw = Except.error QueryError.notSelectQuery ↔
      (hasPrefixL (toLowerS (trimSpace raw)) "select".data = false ∧
       hasPrefixL (toLowerS (trimSpace raw)) "with".data = false)) := by
  cases hsel : hasPrefixL (toLowerS (trimSpace raw)) "select".data <;>
    cases hwith : hasPrefixL (toLowerS (trimSpace raw)) "with".data <;>
    simp [validateSelectQuery, h, hsel, hwith]

/-- Witness for the amended C2 claim: "withdraw funds" passes the prefix
test and is accepted. -/
theorem validateSelectQuery_prefixCheck_witness :
    validateSelectQuery "withdraw funds".data =
      Except.ok "withdraw funds".data := by
  have h := (validateSelectQuery_prefixCheck "withdraw funds".data
    (by decide)).1.mpr (Or.inr (by decide))
  rw [h]; decide

/-- C5: `clampLimit` yields the fixed default 200 on non-positive input,
the fixed maximum 1000 above the maximum, the input unchanged in range,
and is idempotent. -/
theorem clampLimit_spec (n : Int) :
    (n ≤ 0 → clampLimit n = 200) ∧
    (n > 1000 → clampLimit n = 1000) ∧
    (0 < n → n ≤ 1000 → clampLimit n = n) ∧
    clampLimit (clampLimit n) = clampLimit n ∧
    defaultLimit = 200 ∧ maxLimit = 1000 := by
  unfold clampLimit defaultLimit maxLimit
  refine ⟨fun h => ?_, fun h => ?_, fun h1 h2 => ?_, ?_, rfl, rfl⟩ <;>
    split_ifs <;> omega

/-- Witness for C5 at one concrete input per branch. -/
theorem clampLimit_spec_witness :
    clampLimit (-5) = 200 ∧ clampLimit 2000 = 1000 ∧ clampLimit 7 = 7 :=
  ⟨(clampLimit_spec (-5)).1 (by decide),
   (clampLimit_spec 2000).2.1 (by decide),
   (clampLimit_spec 7).2.2.1 (by decide) (by decide)⟩

/-- C6 counterexample: the parser strips only the exact-case fence
markers "```sql" and "```SQL"; on the mixed casing "```Sql" only the bare
"```" fence is stripped, so the letters "Sql" survive into the candidate
query instead of the claimed "SELECT 1". -/
theorem ParseResponse_mixedFence_cex :
    (ParseResponse "```Sql\nSELECT 1\n```".data).SQL = "Sql\nSELECT 1".data ∧
    (ParseResponse "```Sql\nSELECT 1\n```".data).SQL ≠ "SELECT 1".data := by
  decide

/-- C6 amended: `ParseResponse` trims; when the upper-cased trimmed text
begins with "MISSING:" it returns the trimmed remainder as the missing
explanation with an empty query; otherwise it strips the exact leading
markers "```sql", "```SQL", and a bare "```" in turn (mixed casings such
as "```Sql" lose only the bare fence), strips a trailing "```", trims
again, and returns the remainder as the candidate query.  The three
concrete examples of the claim hold, and the mixed-casing input keeps
the letters "Sql". -/
theorem ParseResponse_spec (raw : Str) :
    (hasPrefixL (toUpperS (trimSpace raw)) "MISSING:".data = true →
      ParseResponse raw =
        { Missing := trimSpace ((trimSpace raw).drop 8) }) ∧
    (hasPrefixL (toUpperS (trimSpace raw)) "MISSING:".data = false →
      ParseResponse raw =
        { SQL := trimSpace (trimSuffixL (trimPrefixL (trimPrefixL
            (trimPrefixL (trimSpace raw) "```sql".data) "```SQL".data)
            "```".data) "```".data) }) ∧
    ParseResponse "MISSING: need orders table".data =
      { Missing := "need orders table".data } ∧
    ParseResponse "```sql\nSELECT 1\n```".data = { SQL := "SELECT 1".data } ∧
    ParseResponse "  select * from t;  ".data =
      { SQL := "select * from t;".data } ∧
    ParseResponse "```Sql\nSELECT 1\n```".data =
      { SQL := "Sql\nSELECT 1".data } := by
  refine ⟨fun h => ?_, fun h => ?_, by decide, by decide, by decide, by decide⟩ <;>
    simp [ParseResponse, h]

/-- Witness for the amended C6 claim, one input per branch. -/
theorem ParseResponse_spec_witness :
    ParseResponse "MISSING: x".data = { Missing := "x".data } ∧
    ParseResponse "select 1".data = { SQL := "select 1".data } := by
  constructor
  · have h := (ParseResponse_spec "MISSING: x".data).1 (by decide)
    rw [h]; decide
  · have h := (ParseResponse_spec "select 1".data).2.1 (by decide)
    rw [h]; decide

/-- C7: no output of `ParseResponse` carries both a non-empty candidate
query and a non-empty missing explanation — at least one of the two
fields is always empty. -/
theorem ParseResponse_mutualExclusion (raw : Str) :
    (ParseResponse raw).SQL = [] ∨ (ParseResponse raw).Missing = [] := by
  cases h : hasPrefixL (toUpperS (trimSpace raw)) "MISSING:".data
  · right; simp [ParseResponse, h]
  · left; simp [ParseResponse, h]

/-- C10: the MISSING test runs before fence stripping — the missing
field is set only when the trimmed raw text itself begins
(case-insensitively) with "MISSING:"; a marker hidden inside a fenced
block comes back as a candidate query containing the marker text. -/
theorem ParseResponse_missingBeforeFences :
    (∀ raw : Str, (ParseResponse raw).Missing ≠ [] →
      hasPrefixL (toUpperS (trimSpace raw)) "MISSING:".data = true) ∧
    ParseResponse "```sql\nMISSING: need orders table\n```".data =
      { SQL := "MISSING: need orders table".data } := by
  refine ⟨fun raw h => ?_, by decide⟩
  cases hp : hasPrefixL (toUpperS (trimSpace raw)) "MISSING:".data
  · exact absurd (by simp [ParseResponse, hp]) h
  · rfl

/-- Witness for C10 at an input whose missing field is non-empty. -/
theorem ParseResponse_missingBeforeFences_witness :
    hasPrefixL (toUpperS (trimSpace "MISSING: x".data)) "MISSING:".data =
      true :=
  ParseResponse_missingBeforeFences.1 "MISSING: x".data (by decide)

/-- C3: in the generation path every parsed candidate passes through the
Safety Gate — whenever the parsed response is a candidate (missing field
empty) that the gate rejects, the handler returns the distinct
"LLM generated invalid query: "-prefixed error with no SQL field; the
concrete "DROP TABLE customers;" provider output yields exactly that
error, and the fenced SELECT output yields the validated candidate with
no error. -/
theorem handleGenerateSQL_gatesCandidate :
    (∀ (raw : Str) (t : Int) (e : QueryError),
      (ParseResponse raw).Missing = [] →
      validateSelectQuery (ParseResponse raw).SQL = Except.error e →
      (handleGenerateCore raw t).SQL = [] ∧
      (handleGenerateCore raw t).Error =
        "LLM generated invalid query: ".data ++ errMessage e) ∧
    handleGenerateCore "DROP TABLE customers;".data 0 =
      { Error :=
          "LLM generated invalid query: only SELECT / CTE queries are allowed".data } ∧
    handleGenerateCore "```sql\nSELECT email FROM customers LIMIT 10\n```".data 7 =
      { SQL := "SELECT email FROM customers LIMIT 10".data, Tokens := 7 } := by
  refine ⟨fun raw t e hm hv => ?_, by decide, by decide⟩
  simp [handleGenerateCore, GenerateResponse.IsMissing, hm, hv]

/-- Witness for C3 at the rejected concrete provider output. -/
theorem handleGenerateSQL_gatesCandidate_witness :
    (handleGenerateCore "DROP TABLE customers;".data 0).SQL = [] ∧
    (handleGenerateCore "DROP TABLE customers;".data 0).Error =
      "LLM generated invalid query: ".data ++
        errMessage QueryError.notSelectQuery :=
  handleGenerateSQL_gatesCandidate.1 "DROP TABLE customers;".data 0
    QueryError.notSelectQuery (by decide) (by decide)

/-- When the rows still to come fit within the limit, the loop consumes
them all and never sets the "more" flag. -/
theorem shapeLoop_complete (limit : Int) (rows : List (List Value)) :
    ∀ acc : List (List Value),
    (acc.length : Int) + rows.length ≤ limit →
    shapeLoop limit acc rows = (acc ++ rows.map normalizeRow, false) := by
  induction rows with
  | nil => intro acc h; simp [shapeLoop]
  | cons r rest ih =>
    intro acc h
    simp only [List.length_cons] at h
    have hlt : ¬ ((acc.length : Int) ≥ limit) := by push_cast at h ⊢; omega
    rw [shapeLoop, if_neg hlt,
      ih (acc ++ [normalizeRow r]) (by simp; push_cast at h ⊢; omega)]
    simp

/-- When more rows remain than the limit allows, the loop stops at
exactly `limit` accepted rows with the "more" flag set. -/
theorem shapeLoop_truncates (limit : Int) (rows : List (List Value)) :
    ∀ acc : List (List Value),
    (acc.length : Int) ≤ limit →
    limit < (acc.length : Int) + rows.length →
    ((shapeLoop limit acc rows).1.length : Int) = limit ∧
    (shapeLoop limit acc rows).2 = true := by
  induction rows with
  | nil =>
    intro acc h1 h2
    simp only [List.length_nil] at h2
    omega
  | cons r rest ih =>
    intro acc h1 h2
    simp only [List.length_cons] at h2
    by_cases hge : (acc.length : Int) ≥ limit
    · rw [shapeLoop, if_pos hge]
      exact ⟨by dsimp only; omega, rfl⟩
    · rw [shapeLoop, if_neg hge]
      exact ih (acc ++ [normalizeRow r])
        (by simp; omega)
        (by simp; push_cast at h2 ⊢; omega)

/-- The clamp never yields a non-positive limit. -/
theorem clampLimit_pos (n : Int) : 0 < clampLimit n := by
  unfold clampLimit defaultLimit maxLimit
  split_ifs <;> omega

/-- C4: with the clamped limit L, a cursor yielding more than L rows
produces exactly L (normalized) rows with the "more" flag true; at most
L rows produces all of them, normalized, with the flag false; zero rows
produces the empty sequence, flag false, count 0; and the count field
always equals the number of rows returned. -/
theorem handleQuery_shaping (reqLimit : Int) (rows : List (List Value)) :
    ((rows.length : Int) > clampLimit reqLimit →
      ((handleQueryShape rows reqLimit).rows.length : Int) =
        clampLimit reqLimit ∧
      (handleQueryShape rows reqLimit).more = true) ∧
    ((rows.length : Int) ≤ clampLimit reqLimit →
      (handleQueryShape rows reqLimit).rows = rows.map normalizeRow ∧
      (handleQueryShape rows reqLimit).more = false) ∧
    (rows = [] →
      (handleQueryShape rows reqLimit).rows = [] ∧
      (handleQueryShape rows reqLimit).more = false ∧
      (handleQueryShape rows reqLimit).count = 0) ∧
    (handleQueryShape rows reqLimit).count =
      (handleQueryShape rows reqLimit).rows.length := by
  refine ⟨fun h => ?_, fun h => ?_, fun h => ?_, rfl⟩
  · have := shapeLoop_truncates (clampLimit reqLimit) rows []
      (by simpa using (clampLimit_pos reqLimit).le) (by simpa using h)
    exact ⟨this.1, this.2⟩
  · have := shapeLoop_complete (clampLimit reqLimit) rows [] (by simpa using h)
    constructor
    · simp [handleQueryShape, this]
    · simp [handleQueryShape, this]
  · subst h
    refine ⟨?_, ?_, ?_⟩ <;> simp [handleQueryShape, shapeLoop]

/-- Witness for C4 at clamped limit 1 with two, one, and zero rows. -/
theorem handleQuery_shaping_witness :
    (handleQueryShape [[Value.null], [Value.null]] 1).rows.length = 1 ∧
    (handleQueryShape [[Value.null], [Value.null]] 1).more = true ∧
    (handleQueryShape [[Value.null]] 1).more = false ∧
    (handleQueryShape ([] : List (List Value)) 1).count = 0 := by
  obtain ⟨h1, h2⟩ := (handleQuery_shaping 1 [[Value.null], [Value.null]]).1
    (by decide)
  rw [show clampLimit 1 = 1 from by decide] at h1
  refine ⟨by exact_mod_cast h1, h2,
    ((handleQuery_shaping 1 [[Value.null]]).2.1 (by decide)).2,
    ((handleQuery_shaping 1 ([] : List (List Value))).2.2.1 rfl).2.2⟩

/-- An empty Go map lookup yields the zero value. -/
theorem lookupD_nil {α : Type} (k : Str) (d : α) : lookupD [] k d = d := rfl

/-- C8: if any of the four catalog queries fails, `Load` returns an
error and leaves the cached tables and last-refresh timestamp exactly
as they were; if only the row-estimate query fails, `Load` succeeds,
publishes the new snapshot at the current instant, and every published
published tables all carry row estimate 0. -/
theorem cacheLoad_spec (st : CacheState) (it : Introspection) (now : Int) :
    ((exceptIsOk it.tableNames = false ∨ exceptIsOk it.columns = false ∨
      exceptIsOk it.primaryKeys = false ∨ exceptIsOk it.foreignKeys = false) →
      (cacheLoad st it now).2 = st ∧
      exceptIsOk (cacheLoad st it now).1 = false) ∧
    (exceptIsOk it.tableNames = true → exceptIsOk it.columns = true →
     exceptIsOk it.primaryKeys = true → exceptIsOk it.foreignKeys = true →
     exceptIsOk it.rowEstimates = false →
      (cacheLoad st it now).1 = Except.ok () ∧
      (cacheLoad st it now).2.lastRefresh = now ∧
      ∀ t ∈ (cacheLoad st it now).2.tables, t.RowEstimate = 0) := by
  obtain ⟨tn, co, pk, fk, re⟩ := it
  refine ⟨fun h => ?_, fun h1 h2 h3 h4 h5 => ?_⟩
  · cases tn with
    | error e => exact ⟨rfl, rfl⟩
    | ok names =>
      cases co with
      | error e => exact ⟨rfl, rfl⟩
      | ok cols =>
        cases pk with
        | error e => exact ⟨rfl, rfl⟩
        | ok pks =>
          cases fk with
          | error e => exact ⟨rfl, rfl⟩
          | ok fks => simp [exceptIsOk] at h
  · cases re with
    | ok m => simp [exceptIsOk] at h5
    | error e =>
      cases tn with
      | error e2 => simp [exceptIsOk] at h1
      | ok names =>
        cases co with
        | error e2 => simp [exceptIsOk] at h2
        | ok cols =>
          cases pk with
          | error e2 => simp [exceptIsOk] at h3
          | ok pks =>
            cases fk with
            | error e2 => simp [exceptIsOk] at h4
            | ok fks =>
              refine ⟨rfl, rfl, fun t ht => ?_⟩
              simp only [cacheLoad, loadTables, List.mem_map] at ht
              obtain ⟨name, -, rfl⟩ := ht
              simp [buildTable, lookupD_nil]

/-- Witness for C8: a failing table-name query leaves the cache intact;
a failing row-estimate query alone still publishes. -/
theorem cacheLoad_spec_witness :
    (cacheLoad ⟨[], 0⟩
      ⟨Except.error "x".data, Except.ok [], Except.ok [], Except.ok [],
        Except.ok []⟩ 5).2 = ⟨[], 0⟩ ∧
    (cacheLoad ⟨[], 0⟩
      ⟨Except.ok ["t".data], Except.ok [], Except.ok [], Except.ok [],
        Except.error "y".data⟩ 5).1 = Except.ok () :=
  ⟨((cacheLoad_spec ⟨[], 0⟩
      ⟨Except.error "x".data, Except.ok [], Except.ok [], Except.ok [],
        Except.ok []⟩ 5).1 (Or.inl (by decide))).1,
   ((cacheLoad_spec ⟨[], 0⟩
      ⟨Except.ok ["t".data], Except.ok [], Except.ok [], Except.ok [],
        Except.error "y".data⟩ 5).2 (by decide) (by decide) (by decide)
      (by decide) (by decide)).1⟩

/-- C9 counterexample: in CSV export mode the NULL marker is the empty
string — `formatCSVValue` maps NULL and the empty string value to the
same output, so NULL is not distinguishable from every string value in
that mode. -/
theorem formatCSV_null_cex :
    formatCSVValue Value.null = formatCSVValue (Value.str []) ∧
    formatCSVValue Value.null = [] := by decide

/-- C9 amended: in interactive mode NULL stays the distinguished null
marker, different from every string value; in CSV export mode NULL is
rendered as the empty string.  In both modes byte payloads become their
text; timestamps render in the timezone-aware RFC 3339-nano form
interactively and the second-precision RFC 3339 form in CSV; every other
value passes through unchanged interactively (and takes its default
textual rendering in CSV).  The two concrete timestamp renderings show
the formats. -/
theorem normalization_spec :
    (normalizeValue Value.null = Value.null ∧
      ∀ s : Str, Value.null ≠ Value.str s) ∧
    (∀ s : Str, normalizeValue (Value.bytes s) = Value.str s ∧
      formatCSVValue (Value.bytes s) = s) ∧
    (∀ t : GoTime, normalizeValue (Value.time t) =
        Value.str (formatRFC3339Nano t) ∧
      formatCSVValue (Value.time t) = formatRFC3339 t) ∧
    (∀ (n : Int) (b : Bool) (s : Str),
      normalizeValue (Value.int n) = Value.int n ∧
      normalizeValue (Value.bool b) = Value.bool b ∧
      normalizeValue (Value.str s) = Value.str s) ∧
    formatCSVValue Value.null = [] ∧
    (∀ vs : List Value, normalizeRow vs = vs.map normalizeValue) ∧
    String.mk (formatRFC3339Nano ⟨2024, 1, 2, 3, 4, 5, 500000000, 0⟩) =
      "2024-01-02T03:04:05.5Z" ∧
    String.mk (formatRFC3339 ⟨2024, 1, 2, 3, 4, 5, 500000000, 0⟩) =
      "2024-01-02T03:04:05Z" := by
  refine ⟨⟨rfl, fun s h => by cases h⟩, fun s => ⟨rfl, rfl⟩,
    fun t => ⟨rfl, rfl⟩, fun n b s => ⟨rfl, rfl, rfl⟩, rfl,
    fun vs => rfl, by decide, by decide⟩

/-- Witness for the amended C9 claim at concrete values. -/
theorem normalization_spec_witness :
    Value.null ≠ Value.str [] ∧
    normalizeValue (Value.bytes "hi".data) = Value.str "hi".data ∧
    formatCSVValue (Value.bytes "hi".data) = "hi".data :=
  ⟨normalization_spec.1.2 [], (normalization_spec.2.1 "hi".data).1,
   (normalization_spec.2.1 "hi".data).2⟩

end WebDbReader
